import Mathlib

/-!
Verification of the transcript language-selection and content-processing
pipeline of the YouTube downloader repository.

Shallow embedding of:
* `src/yt_transcript_app/get_transcript_list.py` (track metadata enumeration,
  default-transcript selection, LLM-suitability indicator),
* `src/yt_transcript_app/trans_core.py` (URL validation, video-id extraction,
  transcript download guard phase, output-file naming, metadata-export step),
* `example_code/refactored_metadata_exporter.py` (CSV flattening),
* `src/common/user_context.py` (per-session video UUID management).

Python dictionaries that carry transcript-track metadata are embedded as
structures; Python lists as Lean lists; Python `None`-able strings as
`Option String`.
-/

namespace YtDl

/-- One raw transcript track as obtained from the transcript API
(`getattr` accesses in `list_transcript_metadata`, get_transcript_list.py
lines 27-38). -/
structure RawTrack where
  language_code : Option String
  language : Option String
  is_generated : Bool
  is_translatable : Option Bool
  can_translate_to : List String
deriving DecidableEq, Repr

/-- One row of the enumerated transcript metadata
(the dict built in `list_transcript_metadata`, lines 33-40). -/
structure TranscriptRow where
  language_code : Option String
  language : Option String
  is_generated : Bool
  is_translatable : Option Bool
  can_translate_to : List String
  is_default : Bool
deriving DecidableEq, Repr

/-- The English language codes `['en', 'en-US', 'en-GB']` used both by the
default-flag policy (line 31) and by the auto-generated-English fallback
(line 120) of get_transcript_list.py. -/
def english_codes : List String := ["en", "en-US", "en-GB"]

/-- Python `language_code in ['en', 'en-US', 'en-GB']`; a `None`
language code is in no list. -/
def is_english_code : Option String → Bool
  | some c => english_codes.contains c
  | none => false

/-- The default-flag policy of `list_transcript_metadata` line 31:
`is_default = (not is_generated) or (is_generated and language_code in
['en', 'en-US', 'en-GB'])`. -/
def mk_row (t : RawTrack) : TranscriptRow :=
  { language_code := t.language_code
    language := t.language
    is_generated := t.is_generated
    is_translatable := t.is_translatable
    can_translate_to := t.can_translate_to
    is_default := (!t.is_generated) || (t.is_generated && is_english_code t.language_code) }

/-- `list_transcript_metadata` (get_transcript_list.py lines 17-46): builds one
metadata row per track, in enumeration order.  The network fetch and logging
are outside the embedding; the per-track row construction is `mk_row`. -/
def list_transcript_metadata (ts : List RawTrack) : List TranscriptRow :=
  ts.map mk_row

/-- The manual-transcript bucket built by the loop at lines 79-88
(`if not r["is_generated"]: manual_transcripts.append(r)`);
`List.filter` preserves the enumeration order exactly as the loop does. -/
def manual_tracks (rows : List TranscriptRow) : List TranscriptRow :=
  rows.filter fun r => !r.is_generated

/-- The auto-generated bucket built by the same loop (`else:
auto_generated_transcripts.append(r)`). -/
def auto_tracks (rows : List TranscriptRow) : List TranscriptRow :=
  rows.filter fun r => r.is_generated

/-- The running `default_transcript` variable of the loop at lines 79-99:
re-assigned on every row whose `is_default` flag is set, so the value after
the loop is the last flagged row. -/
def last_default (rows : List TranscriptRow) : Option TranscriptRow :=
  rows.foldl (fun acc r => if r.is_default then some r else acc) none

/-- Priority 1 of the fallback (lines 106-111): `next((t for t in
all_transcripts if t['language_code'] == preferred_language), None)`, guarded
by Python truthiness of `preferred_language` (`if preferred_language:`, so
`None` and the empty string both skip this step). -/
def pref_lookup (all : List TranscriptRow) : Option String → Option TranscriptRow
  | none => none
  | some l => if l = "" then none else all.find? fun t => t.language_code == some l

/-- The enhanced fallback logic of `print_and_select_default_transcript`
(lines 101-127), reached when no row carries the `is_default` flag:
preferred language first, then the first manual track, then an
auto-generated English track, then the first auto-generated track. -/
def select_fallback (rows : List TranscriptRow) (preferred : Option String) :
    Option TranscriptRow :=
  match pref_lookup (manual_tracks rows ++ auto_tracks rows) preferred with
  | some t => some t
  | none =>
    match manual_tracks rows with
    | m :: _ => some m
    | [] =>
      match auto_tracks rows with
      | [] => none
      | a :: tl =>
        match (a :: tl).find? (fun t => is_english_code t.language_code) with
        | some e => some e
        | none => some a

/-- The selection core of `print_and_select_default_transcript`
(get_transcript_list.py lines 70-136), with the printing and the
config-loading side channel stripped: empty row list returns `None`
(lines 70-73); otherwise the last row flagged `is_default` wins
(lines 79-99), and only when no row is flagged does the enhanced fallback
run (lines 101-127). -/
def select_default_transcript (rows : List TranscriptRow) (preferred : Option String) :
    Option TranscriptRow :=
  if rows.isEmpty then none
  else
    match last_default rows with
    | some r => some r
    | none => select_fallback rows preferred

/-! Helper lemmas about the selector. -/

theorem foldl_last_default (l : List TranscriptRow) (acc : Option TranscriptRow) :
    l.foldl (fun acc r => if r.is_default then some r else acc) acc
      = (l.reverse.find? (fun r => r.is_default)).or acc := by
  induction l generalizing acc with
  | nil => simp
  | cons r t ih =>
    simp only [List.foldl_cons, ih, List.reverse_cons, List.find?_append]
    cases h : List.find? (fun r => r.is_default) t.reverse with
    | some x => simp [Option.or]
    | none =>
      cases hr : r.is_default <;>
        simp [Option.or, List.find?_cons, hr]

theorem last_default_eq (rows : List TranscriptRow) :
    last_default rows = rows.reverse.find? (fun r => r.is_default) := by
  unfold last_default
  rw [foldl_last_default]
  cases h : rows.reverse.find? (fun r => r.is_default) <;> simp [Option.or]

theorem last_default_none (rows : List TranscriptRow)
    (h : ∀ r ∈ rows, r.is_default = false) : last_default rows = none := by
  rw [last_default_eq]
  refine List.find?_eq_none.mpr ?_
  intro x hx
  have hm : x ∈ rows := List.mem_reverse.mp hx
  simp [h x hm]

/-! Concrete tracks used as witnesses. -/

/-- An auto-generated English track row carrying no default flag
(the first track of the spec scenario for preferred-language selection). -/
def row_en_auto : TranscriptRow :=
  ⟨some "en", some "English", true, some true, [], false⟩

/-- An auto-generated Spanish track row carrying no default flag
(the second track of the same scenario). -/
def row_es_auto : TranscriptRow :=
  ⟨some "es", some "Spanish", true, some true, [], false⟩

/-- A manually authored French raw track. -/
def raw_fr_manual : RawTrack := ⟨some "fr", some "French", false, some true, []⟩

/-- An auto-generated English raw track. -/
def raw_en_auto : RawTrack := ⟨some "en", some "English", true, some true, []⟩

/-- C1: when no track carries the explicit default flag and a non-empty
preferred language is supplied that some track matches, the selector
returns a track with exactly that language code (the preference fires
before the manual / auto-English fallbacks). -/
theorem C1_preferred_language_honored :
    ∀ (rows : List TranscriptRow) (l : String),
      (∀ r ∈ rows, r.is_default = false) → l ≠ "" →
      (∃ r ∈ rows, r.language_code = some l) →
      ∃ t, select_default_transcript rows (some l) = some t ∧
        t.language_code = some l := by
  intro rows l hnd hne hex
  obtain ⟨r0, hr0m, hr0l⟩ := hex
  have hrows : rows ≠ [] := by
    intro h
    subst h
    exact absurd hr0m (List.not_mem_nil r0)
  have hnotempty : ¬ rows.isEmpty = true := fun h => hrows (List.isEmpty_iff.mp h)
  unfold select_default_transcript
  rw [if_neg hnotempty, last_default_none rows hnd]
  unfold select_fallback
  simp only [pref_lookup]
  rw [if_neg hne]
  have hmem : r0 ∈ manual_tracks rows ++ auto_tracks rows := by
    cases hg : r0.is_generated with
    | false =>
      exact List.mem_append.mpr
        (Or.inl (List.mem_filter.mpr ⟨hr0m, by simp [hg]⟩))
    | true =>
      exact List.mem_append.mpr
        (Or.inr (List.mem_filter.mpr ⟨hr0m, by simp [hg]⟩))
  have hsome : ((manual_tracks rows ++ auto_tracks rows).find?
      (fun t => t.language_code == some l)).isSome = true :=
    List.find?_isSome.mpr ⟨r0, hmem, by simp [hr0l]⟩
  obtain ⟨t, ht⟩ := Option.isSome_iff_exists.mp hsome
  have hpt : (t.language_code == some l) = true :=
    List.find?_some (p := fun (t : TranscriptRow) => t.language_code == some l) ht
  rw [ht]
  exact ⟨t, rfl, eq_of_beq hpt⟩

/-- Witness for C1: the spec scenario — tracks en-auto and es-auto, neither
flagged default, preferred language "es" — selects the es track. -/
theorem C1_preferred_language_honored_witness :
    (∀ r ∈ [row_en_auto, row_es_auto], r.is_default = false)
    ∧ "es" ≠ ""
    ∧ (∃ t, select_default_transcript [row_en_auto, row_es_auto] (some "es") = some t ∧
        t.language_code = some "es")
    ∧ select_default_transcript [row_en_auto, row_es_auto] (some "es") = some row_es_auto :=
  ⟨by decide, by decide,
    C1_preferred_language_honored [row_en_auto, row_es_auto] "es" (by decide) (by decide)
      ⟨row_es_auto, by decide, by decide⟩,
    by decide⟩

/-- Counterexample for C2: with a manual French track followed by an
auto-generated English track, both rows get the default flag, and the
selector returns the en row — the last flagged row in enumeration order,
not the first. -/
theorem C2_counterexample_last_not_first :
    select_default_transcript (list_transcript_metadata [raw_fr_manual, raw_en_auto]) none
        = some (mk_row raw_en_auto)
      ∧ (list_transcript_metadata [raw_fr_manual, raw_en_auto]).find?
          (fun r => r.is_default) = some (mk_row raw_fr_manual)
      ∧ mk_row raw_en_auto ≠ mk_row raw_fr_manual := by
  decide

/-- C2 (amended): the enumerated metadata flags a row default exactly when it
is manual or auto-generated English, and when some row is flagged default the
selector returns the LAST flagged row in enumeration order. -/
theorem C2_default_policy_and_last_default_selected :
    (∀ ts : List RawTrack, ∀ r ∈ list_transcript_metadata ts,
        (r.is_default = true ↔
          (r.is_generated = false ∨
            (r.is_generated = true ∧ is_english_code r.language_code = true))))
    ∧ (∀ (rows : List TranscriptRow) (pref : Option String),
        (∃ r ∈ rows, r.is_default = true) →
        select_default_transcript rows pref
          = rows.reverse.find? (fun r => r.is_default)) := by
  constructor
  · intro ts r hr
    obtain ⟨t, _, hteq⟩ := List.mem_map.mp hr
    subst hteq
    simp only [mk_row]
    cases t.is_generated <;> cases he : is_english_code t.language_code <;> simp [he]
  · intro rows pref hex
    obtain ⟨r0, hm, hd⟩ := hex
    have hrows : rows ≠ [] := by
      intro h
      subst h
      exact absurd hm (List.not_mem_nil r0)
    have hnotempty : ¬ rows.isEmpty = true := fun h => hrows (List.isEmpty_iff.mp h)
    unfold select_default_transcript
    rw [if_neg hnotempty, last_default_eq]
    cases hf : rows.reverse.find? (fun r => r.is_default) with
    | some x => rfl
    | none =>
      exact absurd hd (by simpa using List.find?_eq_none.mp hf r0 (List.mem_reverse.mpr hm))

/-- Witness for C2 (amended), at the two-track counterexample input. -/
theorem C2_default_policy_witness :
    ((mk_row raw_fr_manual).is_default = true ↔
      ((mk_row raw_fr_manual).is_generated = false ∨
        ((mk_row raw_fr_manual).is_generated = true ∧
          is_english_code (mk_row raw_fr_manual).language_code = true)))
    ∧ select_default_transcript (list_transcript_metadata [raw_fr_manual, raw_en_auto]) none
        = (list_transcript_metadata [raw_fr_manual, raw_en_auto]).reverse.find?
            (fun r => r.is_default) :=
  ⟨C2_default_policy_and_last_default_selected.1 [raw_fr_manual] _ (by decide),
    C2_default_policy_and_last_default_selected.2 _ none
      ⟨mk_row raw_fr_manual, by decide, by decide⟩⟩

/-- C5: the selector returns `none` exactly on the empty track list; every
non-empty list yields a selected track, whatever the preferred language. -/
theorem C5_selector_none_iff_empty :
    ∀ (rows : List TranscriptRow) (pref : Option String),
      select_default_transcript rows pref = none ↔ rows = [] := by
  intro rows pref
  cases rows with
  | nil => simp [select_default_transcript]
  | cons r t =>
    refine iff_of_false ?_ (List.cons_ne_nil r t)
    intro h
    unfold select_default_transcript at h
    simp only [List.isEmpty_cons, if_false] at h
    cases hd : last_default (r :: t) with
    | some x => rw [hd] at h; simp at h
    | none =>
      rw [hd] at h
      unfold select_fallback at h
      cases hp : pref_lookup (manual_tracks (r :: t) ++ auto_tracks (r :: t)) pref with
      | some x => rw [hp] at h; simp at h
      | none =>
        rw [hp] at h
        cases hm : manual_tracks (r :: t) with
        | cons m ms => rw [hm] at h; simp at h
        | nil =>
          rw [hm] at h
          cases ha : auto_tracks (r :: t) with
          | nil =>
            cases hg : r.is_generated with
            | false => simp [manual_tracks, List.filter_cons, hg] at hm
            | true => simp [auto_tracks, List.filter_cons, hg] at ha
          | cons a tl =>
            rw [ha] at h
            cases he : (a :: tl).find? (fun x => is_english_code x.language_code) with
            | some e => simp [he] at h
            | none => simp [he] at h

/-- C9: the selection logic is deterministic — equal track lists and equal
preferred languages give equal selections. -/
theorem C9_selector_deterministic :
    ∀ (rows1 rows2 : List TranscriptRow) (p1 p2 : Option String),
      rows1 = rows2 → p1 = p2 →
      select_default_transcript rows1 p1 = select_default_transcript rows2 p2 := by
  intro rows1 rows2 p1 p2 h1 h2
  rw [h1, h2]

/-- Witness for C9 at a concrete two-track list. -/
theorem C9_selector_deterministic_witness :
    select_default_transcript [row_en_auto, row_es_auto] (some "es")
      = select_default_transcript [row_en_auto, row_es_auto] (some "es") :=
  C9_selector_deterministic [row_en_auto, row_es_auto] [row_en_auto, row_es_auto]
    (some "es") (some "es") rfl rfl

/-! LLM-suitability indicator (C3). -/

/-- Verdict of the LLM-suitability indicator: the suitability band named in
the printed line and whether the line carries the recommending check mark. -/
structure LlmVerdict where
  suitability : String
  recommended_for_llm : Bool
deriving DecidableEq, Repr

/-- The LLM-suitability indicator of `print_transcript_preview`
(get_transcript_list.py lines 317-324).  Quality scores are Python floats
(rationals here), word counts Python ints.  The two check-marked lines
("Excellent for LLM analysis", "Good for LLM analysis") are the recommended
verdicts; the warning and cross lines ("Fair ... may need cleaning",
"Poor quality - manual review recommended") are not recommended. -/
def llm_suitability_indicator (quality_score : ℚ) (word_count : ℤ) : LlmVerdict :=
  if 80 ≤ quality_score ∧ 100 ≤ word_count ∧ word_count ≤ 3000 then
    ⟨"Excellent", true⟩
  else if 70 ≤ quality_score ∧ 50 ≤ word_count ∧ word_count ≤ 5000 then
    ⟨"Good", true⟩
  else if 60 ≤ quality_score then
    ⟨"Fair", false⟩
  else
    ⟨"Poor", false⟩

/-- Modelled from the spec's words (section 4.5 policy bands), for comparison
against the source indicator. -/
def llm_suitability_spec_bands (quality_score : ℚ) (word_count : ℤ) : LlmVerdict :=
  if 80 ≤ quality_score ∧ 100 ≤ word_count ∧ word_count ≤ 3000 then
    ⟨"Excellent", true⟩
  else if 70 ≤ quality_score ∧ 50 ≤ word_count ∧ word_count ≤ 5000 then
    ⟨"Good", true⟩
  else if 60 ≤ quality_score then
    ⟨"Fair", false⟩
  else
    ⟨"Poor", false⟩

/-- C3: the indicator is a total function of quality score and word count,
its bands agree exactly with the spec's bands at every input, each band fires
exactly under its stated guard, and the scenario quality 85 / 500 words is
Excellent and recommended. -/
theorem C3_llm_suitability_bands :
    (∀ (qs : ℚ) (wc : ℤ),
      llm_suitability_indicator qs wc = llm_suitability_spec_bands qs wc
      ∧ (llm_suitability_indicator qs wc = ⟨"Excellent", true⟩ ↔
          (80 ≤ qs ∧ 100 ≤ wc ∧ wc ≤ 3000))
      ∧ (llm_suitability_indicator qs wc = ⟨"Good", true⟩ ↔
          (¬(80 ≤ qs ∧ 100 ≤ wc ∧ wc ≤ 3000) ∧ (70 ≤ qs ∧ 50 ≤ wc ∧ wc ≤ 5000)))
      ∧ (llm_suitability_indicator qs wc = ⟨"Fair", false⟩ ↔
          (¬(80 ≤ qs ∧ 100 ≤ wc ∧ wc ≤ 3000) ∧ ¬(70 ≤ qs ∧ 50 ≤ wc ∧ wc ≤ 5000)
            ∧ 60 ≤ qs))
      ∧ (llm_suitability_indicator qs wc = ⟨"Poor", false⟩ ↔
          (¬(80 ≤ qs ∧ 100 ≤ wc ∧ wc ≤ 3000) ∧ ¬(70 ≤ qs ∧ 50 ≤ wc ∧ wc ≤ 5000)
            ∧ ¬(60 ≤ qs))))
    ∧ llm_suitability_indicator 85 500 = ⟨"Excellent", true⟩ := by
  constructor
  · intro qs wc
    unfold llm_suitability_indicator llm_suitability_spec_bands
    split_ifs with h1 h2 h3 <;>
      simp_all [LlmVerdict.mk.injEq]
  · decide

/-! URL validation and video-id extraction (C4). -/

/-- The substring patterns of `validate_transcript_url`
(trans_core.py lines 52-57). -/
def transcript_url_patterns : List String :=
  ["youtube.com/watch", "youtu.be/", "youtube.com/embed/", "youtube.com/v/"]

/-- Python `url.lower()` (ASCII case folding, which covers every character of
the patterns). -/
def lower_string (s : String) : String := String.mk (s.data.map Char.toLower)

/-- Boolean substring containment, Python `pattern in url`. -/
def contains_substring (hay pat : List Char) : Bool :=
  match hay with
  | [] => pat.isEmpty
  | _ :: t => pat.isPrefixOf hay || contains_substring t pat

/-- `validate_transcript_url` (trans_core.py lines 42-58):
`any(pattern in url.lower() for pattern in youtube_patterns)`. -/
def validate_transcript_url (url : String) : Bool :=
  transcript_url_patterns.any fun p => contains_substring (lower_string url).data p.data

/-- One character of the regex class `[a-zA-Z0-9_-]`. -/
def is_id_char (c : Char) : Bool :=
  c.isAlpha || c.isDigit || c == '_' || c == '-'

/-- The alternatives of the first extraction regex
`(?:youtube\.com/watch\?v=|youtu\.be/|youtube\.com/embed/|youtube\.com/v/)`,
in the order the regex tries them. -/
def id_marker_alternatives : List (List Char) :=
  ["youtube.com/watch?v=".data, "youtu.be/".data,
   "youtube.com/embed/".data, "youtube.com/v/".data]

/-- Match one alternative at the current position followed by the capture
group `([a-zA-Z0-9_-]{11})`: exactly 11 id characters must follow. -/
def match_id_at (marker l : List Char) : Option (List Char) :=
  if marker.isPrefixOf l then
    let cand := (l.drop marker.length).take 11
    if cand.length = 11 && cand.all is_id_char then some cand else none
  else none

/-- `re.search` of the first pattern: scan positions left to right, at each
position try the alternatives in order. -/
def search_id_pattern1 (l : List Char) : Option (List Char) :=
  match l with
  | [] => none
  | c :: t =>
    match id_marker_alternatives.findSome? (fun m => match_id_at m (c :: t)) with
    | some r => some r
    | none => search_id_pattern1 t

/-- The literal head of the second pattern `youtube\.com/watch\?`. -/
def watch_head : List Char := "youtube.com/watch?".data

/-- Match `v=([a-zA-Z0-9_-]{11})` at the current position. -/
def v_match_at (l : List Char) : Option (List Char) :=
  match l with
  | 'v' :: '=' :: rest =>
    let cand := rest.take 11
    if cand.length = 11 && cand.all is_id_char then some cand else none
  | _ => none

/-- The greedy `.*` of the second pattern: among all positions where
`v=([a-zA-Z0-9_-]{11})` matches, the last one wins. -/
def last_v_match (l : List Char) : Option (List Char) :=
  match l with
  | [] => none
  | c :: t =>
    match last_v_match t with
    | some r => some r
    | none => v_match_at (c :: t)

/-- `re.search` of the second pattern `youtube\.com/watch\?.*v=(...)`: scan
positions left to right for the literal head, then the greedy dot-star runs
to the last `v=` match before the next newline (`.` does not cross `\n`). -/
def search_id_pattern2 (l : List Char) : Option (List Char) :=
  match l with
  | [] => none
  | c :: t =>
    if watch_head.isPrefixOf (c :: t) then
      match last_v_match (((c :: t).drop watch_head.length).takeWhile
          (fun ch => ch ≠ '\n')) with
      | some r => some r
      | none => search_id_pattern2 t
    else search_id_pattern2 t

/-- `extract_video_id` (trans_core.py lines 61-83): the first pattern is
searched first; only if it matches nowhere is the second searched. -/
def extract_video_id (url : String) : Option String :=
  match search_id_pattern1 url.data with
  | some r => some (String.mk r)
  | none => (search_id_pattern2 url.data).map String.mk

/-- One observable side effect of the download pipeline. -/
inductive Effect where
  | fetch_transcript (video_id : String)
  | write_file (path : String)
deriving DecidableEq, Repr

/-- The input-validation guard phase of `download_transcript`
(trans_core.py lines 272-287): URL validation, then video-id extraction, each
failure raising `ValueError` with the source's message.  Everything after the
guards (transcript fetch, file writes) is the continuation `k`, which reports
the effects it performed; the guard phase itself performs none. -/
def download_transcript_guard (url : String)
    (k : String → Except String (List (String × String)) × List Effect) :
    Except String (List (String × String)) × List Effect :=
  if validate_transcript_url url = false then
    (Except.error ("Invalid YouTube URL: " ++ url), [])
  else
    match extract_video_id url with
    | none => (Except.error ("Could not extract video ID from URL: " ++ url), [])
    | some vid => k vid

/-- C4: whenever URL validation fails or no 11-character video id can be
extracted, `download_transcript` raises `ValueError` with an empty effect
trace — no transcript fetch is attempted, no file is written, and no retry
happens — whatever the rest of the pipeline would do. -/
theorem C4_invalid_url_fails_fast :
    ∀ (url : String) (k : String → Except String (List (String × String)) × List Effect),
      validate_transcript_url url = false ∨ extract_video_id url = none →
      ∃ msg, download_transcript_guard url k = (Except.error msg, []) := by
  intro url k h
  unfold download_transcript_guard
  cases hv : validate_transcript_url url with
  | false => exact ⟨"Invalid YouTube URL: " ++ url, by simp⟩
  | true =>
    have hx : extract_video_id url = none := by
      rcases h with h | h
      · rw [hv] at h; cases h
      · exact h
    exact ⟨"Could not extract video ID from URL: " ++ url, by simp [hx]⟩

/-- Witness for C4: `https://youtu.be/abc` passes URL validation but carries
no 11-character id, so the guard rejects it without performing any effect. -/
theorem C4_invalid_url_fails_fast_witness :
    extract_video_id "https://youtu.be/abc" = none
    ∧ ∃ msg, download_transcript_guard "https://youtu.be/abc"
        (fun vid => (Except.ok [], [Effect.fetch_transcript vid]))
        = (Except.error msg, []) :=
  ⟨by decide,
    C4_invalid_url_fails_fast "https://youtu.be/abc"
      (fun vid => (Except.ok [], [Effect.fetch_transcript vid]))
      (Or.inr (by decide))⟩

/-! Output file naming (C6). -/

/-- Python `s.rsplit('.', 1)[0]` when `s` contains a dot: everything before
the last dot. -/
def rsplit_dot_head (s : String) : String :=
  String.mk (((s.data.reverse.dropWhile (fun c => c ≠ '.')).drop 1).reverse)

/-- Python `s.endswith(suffix)`. -/
def str_ends_with (s suffix : String) : Bool :=
  suffix.data.isSuffixOf s.data

/-- Python `c in s` for a single character. -/
def str_contains_char (s : String) (c : Char) : Bool :=
  s.data.elem c

/-- The per-format base name of `perform_transcript_download`
(trans_core.py lines 206-208): the trailing extension is removed only when
the template ends with `.txt` or `.json`. -/
def transcript_base_name (t : String) : String :=
  if str_ends_with t ".txt" || str_ends_with t ".json" then rsplit_dot_head t else t

/-- The filename chosen for one transcript format
(trans_core.py lines 210-215); every format other than `structured` and
`clean` falls into the `timestamped` branch, as in the source's final
`else`. -/
def transcript_format_filename (t fmt : String) : String :=
  if fmt = "structured" then transcript_base_name t ++ "_structured.json"
  else if fmt = "clean" then transcript_base_name t ++ "_clean.txt"
  else transcript_base_name t ++ "_timestamped.txt"

/-- The metadata-export base name of `download_transcript`
(trans_core.py line 345): `output_template.rsplit('.', 1)[0] if '.' in
output_template else output_template` — truncated at the LAST dot whenever
the template contains any dot, not only for a `.txt`/`.json` suffix. -/
def metadata_base_name (t : String) : String :=
  if str_contains_char t '.' then rsplit_dot_head t else t

/-- The three metadata export files written at trans_core.py lines 347-357:
a JSON metadata file, a CSV metadata file and a Markdown report. -/
def metadata_export_filenames (t : String) : List String :=
  [metadata_base_name t ++ "_metadata.json",
   metadata_base_name t ++ "_metadata.csv",
   metadata_base_name t ++ "_report.md"]

theorem ends_with_dot_member (t suf : String) (hm : '.' ∈ suf.data)
    (h : str_ends_with t suf = true) : str_contains_char t '.' = true := by
  unfold str_ends_with at h
  unfold List.isSuffixOf at h
  have hp : suf.data.reverse <+: t.data.reverse := List.isPrefixOf_iff_prefix.mp h
  have hmem : '.' ∈ t.data.reverse := hp.subset (List.mem_reverse.mpr hm)
  exact List.elem_iff.mpr (List.mem_reverse.mp hmem)

/-- Counterexample for C6: for the template `transcript.v2` (a dot, but no
trailing `.txt`/`.json`), the transcript format files keep the full template
as base name while the metadata exports are cut at the last dot, so the
claimed names `transcript.v2_metadata.csv` / `transcript.v2_report.md`
are not among the files produced (and a `_metadata.json` file is). -/
theorem C6_counterexample_dotted_template :
    transcript_base_name "transcript.v2" = "transcript.v2"
    ∧ transcript_format_filename "transcript.v2" "clean" = "transcript.v2_clean.txt"
    ∧ metadata_export_filenames "transcript.v2"
        = ["transcript_metadata.json", "transcript_metadata.csv", "transcript_report.md"]
    ∧ "transcript.v2_metadata.csv" ∉ metadata_export_filenames "transcript.v2"
    ∧ "transcript.v2_report.md" ∉ metadata_export_filenames "transcript.v2" := by
  decide

/-- C6 (amended): the transcript format files are named
`base_clean.txt` / `base_timestamped.txt` / `base_structured.json` with
`base` the template minus a trailing `.txt`/`.json`; the metadata exports are
`mbase_metadata.csv`, `mbase_report.md` and additionally
`mbase_metadata.json`, with `mbase` the template cut at its last dot whenever
it contains a dot; the two bases agree when the template has no dot or ends
in `.txt`/`.json`. -/
theorem C6_naming_convention :
    ∀ t : String,
      transcript_format_filename t "clean" = transcript_base_name t ++ "_clean.txt"
      ∧ transcript_format_filename t "timestamped"
          = transcript_base_name t ++ "_timestamped.txt"
      ∧ transcript_format_filename t "structured"
          = transcript_base_name t ++ "_structured.json"
      ∧ metadata_export_filenames t
          = [metadata_base_name t ++ "_metadata.json",
             metadata_base_name t ++ "_metadata.csv",
             metadata_base_name t ++ "_report.md"]
      ∧ ((str_ends_with t ".txt" = true ∨ str_ends_with t ".json" = true
            ∨ str_contains_char t '.' = false) →
          metadata_base_name t = transcript_base_name t) := by
  intro t
  refine ⟨rfl, rfl, rfl, rfl, ?_⟩
  rintro (h | h | h)
  · simp [metadata_base_name, transcript_base_name, h,
      ends_with_dot_member t ".txt" (by decide) h]
  · simp [metadata_base_name, transcript_base_name, h,
      ends_with_dot_member t ".json" (by decide) h]
  · have h1 : str_ends_with t ".txt" = false := by
      cases hh : str_ends_with t ".txt" with
      | false => rfl
      | true =>
        exact absurd (ends_with_dot_member t ".txt" (by decide) hh) (by simp [h])
    have h2 : str_ends_with t ".json" = false := by
      cases hh : str_ends_with t ".json" with
      | false => rfl
      | true =>
        exact absurd (ends_with_dot_member t ".json" (by decide) hh) (by simp [h])
    simp [metadata_base_name, transcript_base_name, h, h1, h2]

/-- Witness for C6 (amended) at the dot-free template `transcript` (the
source default), where the two base names agree. -/
theorem C6_naming_convention_witness :
    transcript_format_filename "transcript" "clean" = "transcript_clean.txt"
    ∧ metadata_base_name "transcript" = transcript_base_name "transcript" :=
  ⟨by decide,
    (C6_naming_convention "transcript").2.2.2.2 (Or.inr (Or.inr (by decide)))⟩

/-! The metadata-export step of `download_transcript` (C7). -/

/-- Observable state around the metadata-export step: files written so far,
log lines emitted, and the processing notes of the already-written structured
data (produced earlier by the metadata collector). -/
structure ExportWorld where
  written : List String
  log : List String
  processing_notes : List String
deriving DecidableEq, Repr

/-- The metadata-export step of `download_transcript` (trans_core.py lines
336-364), after `perform_transcript_download` succeeded with `saved_files`:
when metadata is enabled and a structured file was saved, the `try` block
reads the structured file back (`read_ok`), tests
`'comprehensive_metadata' in structured_data`, and then runs THREE
sequential `export_metadata` calls — JSON (line 349), CSV (line 353),
Markdown (line 357) — each of which either writes its file or raises.  A
raise anywhere jumps to the `except` at lines 361-363, which only writes one
warning to the log; files written by the earlier calls in the sequence
remain.  The step always returns `saved_files` unchanged. -/
def metadata_export_step (output_template : String) (include_metadata : Bool)
    (saved_files : List (String × String)) (read_ok has_comprehensive_metadata : Bool)
    (json_export_ok csv_export_ok markdown_export_ok : Bool) (w : ExportWorld) :
    List (String × String) × ExportWorld :=
  if include_metadata && (saved_files.lookup "structured").isSome then
    if read_ok then
      if has_comprehensive_metadata then
        if json_export_ok then
          if csv_export_ok then
            if markdown_export_ok then
              (saved_files,
                { w with
                    written := w.written ++ metadata_export_filenames output_template,
                    log := w.log ++ ["Metadata exported in multiple formats"] })
            else
              (saved_files,
                { w with
                    written := w.written ++
                      [metadata_base_name output_template ++ "_metadata.json",
                       metadata_base_name output_template ++ "_metadata.csv"],
                    log := w.log ++ ["Could not export metadata"] })
          else
            (saved_files,
              { w with
                  written := w.written ++
                    [metadata_base_name output_template ++ "_metadata.json"],
                  log := w.log ++ ["Could not export metadata"] })
        else
          (saved_files, { w with log := w.log ++ ["Could not export metadata"] })
      else (saved_files, w)
    else (saved_files, { w with log := w.log ++ ["Could not export metadata"] })
  else (saved_files, w)

/-- The transcript files saved before the export step in the witness runs. -/
def saved_files_example : List (String × String) :=
  [("clean", "transcript_clean.txt"),
   ("timestamped", "transcript_timestamped.txt"),
   ("structured", "transcript_structured.json")]

/-- The world state right after the transcript files were written, with no
processing notes recorded. -/
def world_example : ExportWorld :=
  ⟨["transcript_clean.txt", "transcript_timestamped.txt", "transcript_structured.json"],
   [], []⟩

/-- Counterexample for C7: a mid-sequence export failure (the JSON export
succeeded and wrote its file, then the CSV export raised) still returns the
saved transcript files, keeps the JSON metadata file already written, logs
the failure — and leaves the processing notes empty: the omission is not
recorded anywhere. -/
theorem C7_counterexample_notes_not_updated :
    (metadata_export_step "transcript" true saved_files_example true true
        true false true world_example).1 = saved_files_example
    ∧ (metadata_export_step "transcript" true saved_files_example true true
        true false true world_example).2.written
        = world_example.written ++ ["transcript_metadata.json"]
    ∧ (metadata_export_step "transcript" true saved_files_example true true
        true false true world_example).2.log = ["Could not export metadata"]
    ∧ (metadata_export_step "transcript" true saved_files_example true true
        true false true world_example).2.processing_notes = [] := by
  decide

/-- C7 (amended): whatever succeeds or fails in the export sequence, the step
returns the saved transcript files unchanged and never touches the
processing notes; the files it adds are always a prefix of the three
metadata export files (so a mid-sequence failure keeps exactly the files the
earlier calls wrote); and whenever the active export sequence fails at any
point, the failure is logged with the single warning line. -/
theorem C7_export_failure_nonfatal :
    ∀ (t : String) (im : Bool) (sf : List (String × String))
      (ro hm jo co mo : Bool) (w : ExportWorld),
      (metadata_export_step t im sf ro hm jo co mo w).1 = sf
      ∧ (metadata_export_step t im sf ro hm jo co mo w).2.processing_notes
          = w.processing_notes
      ∧ (∃ pre, pre <+: metadata_export_filenames t
          ∧ (metadata_export_step t im sf ro hm jo co mo w).2.written
              = w.written ++ pre)
      ∧ ((im && (sf.lookup "structured").isSome) = true →
          (ro = false ∨ (hm = true ∧ (jo = false ∨ co = false ∨ mo = false))) →
          (metadata_export_step t im sf ro hm jo co mo w).2.log
            = w.log ++ ["Could not export metadata"]) := by
  intro t im sf ro hm jo co mo w
  refine ⟨?_, ?_, ?_, ?_⟩
  · unfold metadata_export_step
    split_ifs <;> rfl
  · unfold metadata_export_step
    split_ifs <;> rfl
  · unfold metadata_export_step
    split_ifs
    · exact ⟨metadata_export_filenames t, List.prefix_rfl, rfl⟩
    · exact ⟨[metadata_base_name t ++ "_metadata.json",
        metadata_base_name t ++ "_metadata.csv"],
        ⟨[metadata_base_name t ++ "_report.md"], rfl⟩, rfl⟩
    · exact ⟨[metadata_base_name t ++ "_metadata.json"],
        ⟨[metadata_base_name t ++ "_metadata.csv",
          metadata_base_name t ++ "_report.md"], rfl⟩, rfl⟩
    · exact ⟨[], ⟨metadata_export_filenames t, rfl⟩, by simp⟩
    · exact ⟨[], ⟨metadata_export_filenames t, rfl⟩, by simp⟩
    · exact ⟨[], ⟨metadata_export_filenames t, rfl⟩, by simp⟩
    · exact ⟨[], ⟨metadata_export_filenames t, rfl⟩, by simp⟩
  · intro hactive hfail
    unfold metadata_export_step
    split_ifs <;> simp_all

/-- Witness for C7 (amended), at the concrete mid-sequence failing run
(JSON export succeeded, CSV export raised). -/
theorem C7_export_failure_nonfatal_witness :
    (metadata_export_step "transcript" true saved_files_example true true
        true false true world_example).1 = saved_files_example
    ∧ (metadata_export_step "transcript" true saved_files_example true true
        true false true world_example).2.processing_notes
        = world_example.processing_notes
    ∧ (metadata_export_step "transcript" true saved_files_example true true
        true false true world_example).2.log
        = world_example.log ++ ["Could not export metadata"] :=
  ⟨(C7_export_failure_nonfatal "transcript" true saved_files_example true true
      true false true world_example).1,
    (C7_export_failure_nonfatal "transcript" true saved_files_example true true
      true false true world_example).2.1,
    (C7_export_failure_nonfatal "transcript" true saved_files_example true true
      true false true world_example).2.2.2 (by decide)
      (Or.inr ⟨rfl, Or.inr (Or.inl rfl)⟩)⟩

/-! Per-session video UUIDs (C10). -/

/-- `UserContext` (user_context.py lines 23-43): a session identifier and the
insertion-ordered `_video_sessions` mapping from video URL to video UUID. -/
structure UserContext where
  session_uuid : String
  video_sessions : List (String × String)
deriving DecidableEq, Repr

/-- `UserContext.get_video_uuid` (user_context.py lines 54-71).  The fresh
UUID the generator would return on this call is the explicit `fresh_uuid`
argument: it is used only when the URL is not yet in the mapping. -/
def get_video_uuid (ctx : UserContext) (fresh_uuid video_url : String) :
    String × UserContext :=
  match ctx.video_sessions.lookup video_url with
  | some u => (u, ctx)
  | none =>
    (fresh_uuid,
      { ctx with video_sessions := ctx.video_sessions ++ [(video_url, fresh_uuid)] })

theorem lookup_append_singleton (l : List (String × String)) (url v : String)
    (h : l.lookup url = none) : (l ++ [(url, v)]).lookup url = some v := by
  induction l with
  | nil => simp [List.lookup]
  | cons p t ih =>
    obtain ⟨k, w⟩ := p
    cases hk : url == k with
    | true => simp [List.lookup, hk] at h
    | false =>
      simp only [List.lookup, hk] at h
      simp only [List.cons_append, List.lookup, hk]
      exact ih h

/-- C10: within one session, `get_video_uuid` is idempotent per URL — a
second call with the same URL returns the same UUID (whatever fresh UUID the
generator would supply) and leaves the URL-to-UUID mapping unchanged. -/
theorem C10_video_uuid_idempotent :
    ∀ (ctx : UserContext) (f1 f2 url : String),
      get_video_uuid (get_video_uuid ctx f1 url).2 f2 url
        = get_video_uuid ctx f1 url := by
  intro ctx f1 f2 url
  cases h : ctx.video_sessions.lookup url with
  | some u => simp [get_video_uuid, h]
  | none => simp [get_video_uuid, h, lookup_append_singleton _ _ f1 h]

/-! CSV flattening (C8). -/

/-- A JSON-like Python value as handled by
`RealDataTransformer.flatten_for_csv` (refactored_metadata_exporter.py):
`None`, a dict, a list, or any other value (a scalar leaf, its rendering
kept as a string). -/
inductive JVal where
  | null
  | prim (s : String)
  | obj (fields : List (String × JVal))
  | arr (items : List JVal)

/-- Python `v and isinstance(v[0], dict)` (the list-of-dicts test inside the
nested `flatten_dict`): the list is non-empty and its first element is a
dict. -/
def head_is_obj : List JVal → Bool
  | JVal.obj _ :: _ => true
  | _ => false

mutual

/-- The nested `flatten_dict` of `flatten_for_csv`
(refactored_metadata_exporter.py lines 320-337): walk the dict, prefixing
keys with the parent key and `_` (Python `f"..." if parent_key else k`). -/
def flatten_dict (d : List (String × JVal)) (parent : String) :
    List (String × JVal) :=
  match d with
  | [] => []
  | (k, v) :: rest =>
    flatten_value (if parent = "" then k else parent ++ "_" ++ k) v ++
      flatten_dict rest parent

/-- Dispatch on one dict value (lines 324-337): dicts recurse; a list whose
first element is a dict goes through the indexed loop over `v[:5]`; any
other list is stored under the key as the join of `str(item) for item in
v[:10]` (the join rendering is kept as the truncated list, since exactly the
first ten items feed it); anything else — the Python `else` — is stored
as-is. -/
def flatten_value (new_key : String) (v : JVal) : List (String × JVal) :=
  match v with
  | .obj fields => flatten_dict fields new_key
  | .arr items =>
    if head_is_obj items then flatten_dict_items items new_key 0
    else [(new_key, .arr (items.take 10))]
  | other => [(new_key, other)]

/-- The loop `for i, item in enumerate(v[:5])` (lines 329-333): the slice
`v[:5]` is realized by stopping once the index reaches 5 (proved equivalent
to taking the first five items in `flatten_dict_items_take`).  Dict items
recurse under `newKey_i`; any other item is stored under `newKey_i`
(Python stringifies it with `str(item)`; the rendering is abstracted). -/
def flatten_dict_items (items : List JVal) (new_key : String) (i : ℕ) :
    List (String × JVal) :=
  match items with
  | [] => []
  | item :: rest =>
    if 5 ≤ i then []
    else
      (match item with
        | .obj fields => flatten_dict fields (new_key ++ "_" ++ toString i)
        | other => [(new_key ++ "_" ++ toString i, other)]) ++
        flatten_dict_items rest new_key (i + 1)

end

/-- Python `d.get(k)`: the value, or `None` when absent. -/
def jget_or_null (d : List (String × JVal)) (k : String) : JVal :=
  match d.lookup k with
  | some v => v
  | none => JVal.null

/-- Python `d.get(k, default)`. -/
def jget_or_default (d : List (String × JVal)) (k : String) (dflt : JVal) : JVal :=
  match d.lookup k with
  | some v => v
  | none => dflt

/-- Python `d.get(k, [])` where the caller then iterates the value: a present
list, or the empty list (a present non-list would make the caller raise and
is treated as absent). -/
def jget_arr (d : List (String × JVal)) (k : String) : List JVal :=
  match d.lookup k with
  | some (JVal.arr items) => items
  | _ => []

/-- Python `if k in d:` followed by dict-shaped use of `d[k]`: the dict's
fields, or `none` when the key is absent (a present non-dict would make the
section body raise and is treated as absent). -/
def get_obj (d : List (String × JVal)) (k : String) :
    Option (List (String × JVal)) :=
  match d.lookup k with
  | some (JVal.obj fs) => some fs
  | _ => none

/-- The `technical_details` block of `flatten_for_csv` (lines 351-357): three
fixed fields, where `tech_video_codecs` is
`', '.join(tech_details.get('video_codecs', []))` — the join runs over the
WHOLE codecs list, with no `[:10]` slice. -/
def tech_section (td : List (String × JVal)) : List (String × JVal) :=
  [("tech_max_resolution", jget_or_null td "max_resolution"),
   ("tech_total_formats", jget_or_null td "total_formats"),
   ("tech_video_codecs", JVal.arr (jget_arr td "video_codecs"))]

/-- The keyword loop of `flatten_for_csv` (lines 375-380):
`for i, kw in enumerate(keywords)` over the already-sliced list, storing
`keyword_i` and `keyword_i_freq` for each dict entry (`kw.get('keyword', '')`
and `kw.get('frequency', 0)`) and nothing for non-dict entries. -/
def flatten_keywords : List JVal → ℕ → List (String × JVal)
  | [], _ => []
  | kw :: rest, i =>
    (match kw with
      | JVal.obj fs =>
        [("keyword_" ++ toString i, jget_or_default fs "keyword" (JVal.prim "")),
         ("keyword_" ++ toString i ++ "_freq",
           jget_or_default fs "frequency" (JVal.prim "0"))]
      | _ => []) ++ flatten_keywords rest (i + 1)

/-- The `content_analysis` block of `flatten_for_csv` (lines 370-392):
keywords sliced to `[:5]` before the loop, topics joined from `[:5]`,
the two `content_type` fields, and the recursive `language_analysis`
flattening. -/
def content_analysis_section (ca : List (String × JVal)) :
    List (String × JVal) :=
  (match ca.lookup "keywords" with
    | some (JVal.arr kws) => flatten_keywords (kws.take 5) 0
    | _ => [])
  ++ (match ca.lookup "topics" with
    | some (JVal.arr ts') => [("topics", JVal.arr (ts'.take 5))]
    | _ => [])
  ++ (match get_obj ca "content_type" with
    | some ct =>
      [("content_category", jget_or_null ct "primary_category"),
       ("content_confidence", jget_or_null ct "confidence")]
    | none => [])
  ++ (match get_obj ca "language_analysis" with
    | some la => flatten_dict la "language"
    | none => [])

/-- The `video_metadata` block of `flatten_for_csv` (lines 346-357). -/
def video_metadata_section (vm : List (String × JVal)) :
    List (String × JVal) :=
  (match get_obj vm "basic_info" with
    | some bi => flatten_dict bi "video"
    | none => [])
  ++ (match get_obj vm "engagement_metrics" with
    | some em => flatten_dict em "engagement"
    | none => [])
  ++ (match get_obj vm "technical_details" with
    | some td => tech_section td
    | none => [])

/-- The `transcript_analysis` block of `flatten_for_csv` (lines 360-392). -/
def transcript_analysis_section (ta : List (String × JVal)) :
    List (String × JVal) :=
  (match get_obj ta "content_metrics" with
    | some cm => flatten_dict cm "content"
    | none => [])
  ++ (match get_obj ta "quality_assessment" with
    | some qa => flatten_dict qa "quality"
    | none => [])
  ++ (match get_obj ta "content_analysis" with
    | some ca => content_analysis_section ca
    | none => [])

/-- The `content_summary` block of `flatten_for_csv` (lines 395-398). -/
def content_summary_section (cs : List (String × JVal)) :
    List (String × JVal) :=
  match get_obj cs "llm_suitability" with
  | some ls => flatten_dict ls "llm"
  | none => []

/-- `flatten_for_csv` (refactored_metadata_exporter.py lines 316-406): the
driver over the focused sections, followed by the `exported_at` timestamp
(line 401, passed in explicitly here).  The Python `flattened` dict is
modeled as the append-ordered entry list; the section key prefixes keep the
sections collision-free. -/
def flatten_for_csv (data : List (String × JVal)) (exported_at : String) :
    List (String × JVal) :=
  (match get_obj data "comprehensive_metadata" with
    | none => []
    | some cm =>
      (match get_obj cm "video_metadata" with
        | some vm => video_metadata_section vm
        | none => [])
      ++ (match get_obj cm "transcript_analysis" with
        | some ta => transcript_analysis_section ta
        | none => [])
      ++ (match get_obj cm "content_summary" with
        | some cs => content_summary_section cs
        | none => []))
  ++ [("exported_at", JVal.prim exported_at)]

theorem flatten_dict_items_stops (items : List JVal) (k : String) (i : ℕ)
    (h : 5 ≤ i) : flatten_dict_items items k i = [] := by
  rw [flatten_dict_items.eq_def]
  cases items with
  | nil => rfl
  | cons a t => simp [h]

theorem flatten_dict_items_take (items : List JVal) (k : String) (i : ℕ) :
    flatten_dict_items items k i = flatten_dict_items (items.take (5 - i)) k i := by
  induction items generalizing i with
  | nil => simp
  | cons a t ih =>
    by_cases h : 5 ≤ i
    · rw [show 5 - i = 0 from by omega, List.take_zero]
      rw [flatten_dict_items_stops _ _ _ h]
      rw [flatten_dict_items.eq_def]
    · have h5 : 5 - i = (5 - (i + 1)) + 1 := by omega
      rw [h5, List.take_succ_cons]
      rw [flatten_dict_items.eq_def]
      conv_rhs => rw [flatten_dict_items.eq_def]
      dsimp only
      rw [if_neg h, if_neg h]
      congr 1
      exact ih (i + 1)

theorem head_is_obj_take (items : List JVal) (n : ℕ) (hn : 0 < n) :
    head_is_obj (items.take n) = head_is_obj items := by
  cases items with
  | nil => simp
  | cons a t =>
    cases n with
    | zero => omega
    | succ m => cases a <;> simp [List.take_succ_cons, head_is_obj]

/-- The eleven video codecs of the counterexample run. -/
def codecs_example : List JVal :=
  [JVal.prim "avc1", .prim "vp9", .prim "av01", .prim "hev1", .prim "mp4v",
   .prim "vp8", .prim "theora", .prim "h263", .prim "mpeg2", .prim "prores",
   .prim "ffv1"]

/-- A `technical_details` dict carrying the eleven codecs. -/
def tech_details_example : List (String × JVal) :=
  [("max_resolution", JVal.prim "1080p"),
   ("total_formats", JVal.prim "20"),
   ("video_codecs", JVal.arr codecs_example)]

/-- A metadata dict whose only populated section is `technical_details`. -/
def metadata_example : List (String × JVal) :=
  [("comprehensive_metadata", JVal.obj
     [("video_metadata", JVal.obj
        [("technical_details", JVal.obj tech_details_example)])])]

/-- Counterexample for C8: `flatten_for_csv` over a metadata dict with eleven
video codecs emits the `tech_video_codecs` field joined from the WHOLE
eleven-element list — line 356 has no `[:10]` slice — so the claimed
universal first-ten bound on scalar lists fails on this input. -/
theorem C8_counterexample_codecs_not_truncated :
    flatten_for_csv metadata_example "2026-01-01T00:00:00"
        = [("tech_max_resolution", JVal.prim "1080p"),
           ("tech_total_formats", JVal.prim "20"),
           ("tech_video_codecs", JVal.arr codecs_example),
           ("exported_at", JVal.prim "2026-01-01T00:00:00")]
    ∧ codecs_example.length = 11
    ∧ JVal.arr codecs_example ≠ JVal.arr (codecs_example.take 10) := by
  refine ⟨rfl, rfl, ?_⟩
  intro h
  injection h with h2
  exact absurd (congrArg List.length h2) (by decide)

/-- C8 (amended): every list that reaches the nested `flatten_dict` helper is
truncated — a list of dicts contributes exactly what its first five elements
contribute, any other list collapses to one row field built from its first
ten elements; the keyword loop emits at most two fields per keyword and the
`content_analysis` block feeds it only the first five keywords; the one
exception is `technical_details.video_codecs`, which is joined in full
without truncation but still occupies a single field of the fixed
three-field technical block, so the column count stays bounded. -/
theorem C8_csv_flattening_truncation :
    (∀ (key : String) (items : List JVal), head_is_obj items = true →
        flatten_value key (.arr items) = flatten_value key (.arr (items.take 5)))
    ∧ (∀ (key : String) (items : List JVal), head_is_obj items = false →
        flatten_value key (.arr items) = [(key, .arr (items.take 10))]
          ∧ (flatten_value key (.arr items)).length = 1)
    ∧ (∀ (kws : List JVal) (i : ℕ),
        (flatten_keywords kws i).length ≤ 2 * kws.length)
    ∧ (∀ (ca : List (String × JVal)) (kws : List JVal),
        ca.lookup "keywords" = some (JVal.arr kws) →
        ∃ rest, content_analysis_section ca
          = flatten_keywords (kws.take 5) 0 ++ rest)
    ∧ (∀ td : List (String × JVal),
        (tech_section td).length = 3
        ∧ ("tech_video_codecs", JVal.arr (jget_arr td "video_codecs"))
            ∈ tech_section td) := by
  refine ⟨?_, ?_, ?_, ?_, ?_⟩
  · intro key items h
    have h5 : head_is_obj (items.take 5) = true := by
      rw [head_is_obj_take items 5 (by omega)]
      exact h
    rw [flatten_value.eq_2, flatten_value.eq_2, if_pos h, if_pos h5]
    exact flatten_dict_items_take items key 0
  · intro key items h
    rw [flatten_value.eq_2, if_neg (by simp [h])]
    exact ⟨rfl, rfl⟩
  · intro kws
    induction kws with
    | nil => intro i; simp [flatten_keywords]
    | cons kw rest ih =>
      intro i
      simp only [flatten_keywords, List.length_append, List.length_cons]
      have harm : (match kw with
          | JVal.obj fs =>
            [("keyword_" ++ toString i, jget_or_default fs "keyword" (JVal.prim "")),
             ("keyword_" ++ toString i ++ "_freq",
               jget_or_default fs "frequency" (JVal.prim "0"))]
          | _ => []).length ≤ 2 := by
        cases kw <;> simp
      have hr := ih (i + 1)
      omega
  · intro ca kws h
    unfold content_analysis_section
    rw [h]
    simp only [List.append_assoc]
    exact ⟨_, rfl⟩
  · intro td
    exact ⟨rfl,
      List.mem_cons_of_mem _ (List.mem_cons_of_mem _ (List.mem_cons_self _ _))⟩

/-- A list of six keyword dicts, one more than the flattening keeps. -/
def keyword_dicts_example : List JVal :=
  [JVal.obj [("keyword", .prim "alpha"), ("frequency", .prim "3")],
   JVal.obj [("keyword", .prim "beta"), ("frequency", .prim "2")],
   JVal.obj [("keyword", .prim "gamma"), ("frequency", .prim "2")],
   JVal.obj [("keyword", .prim "delta"), ("frequency", .prim "1")],
   JVal.obj [("keyword", .prim "epsilon"), ("frequency", .prim "1")],
   JVal.obj [("keyword", .prim "zeta"), ("frequency", .prim "1")]]

/-- A list of twelve scalar topics, two more than the join keeps. -/
def scalar_list_example : List JVal :=
  [JVal.prim "t1", .prim "t2", .prim "t3", .prim "t4", .prim "t5", .prim "t6",
   .prim "t7", .prim "t8", .prim "t9", .prim "t10", .prim "t11", .prim "t12"]

/-- A `content_analysis` dict holding the six keyword dicts. -/
def content_analysis_example : List (String × JVal) :=
  [("keywords", JVal.arr keyword_dicts_example)]

/-- Witness for C8 (amended): six keyword dicts flatten like their first
five, twelve scalar topics collapse to one field holding the first ten, the
keyword loop stays within two fields per keyword, the keyword section slices
to five, and the technical block has exactly three fields. -/
theorem C8_csv_flattening_truncation_witness :
    flatten_value "keywords" (.arr keyword_dicts_example)
        = flatten_value "keywords" (.arr (keyword_dicts_example.take 5))
    ∧ flatten_value "topics" (.arr scalar_list_example)
        = [("topics", .arr (scalar_list_example.take 10))]
    ∧ (flatten_keywords keyword_dicts_example 0).length
        ≤ 2 * keyword_dicts_example.length
    ∧ (∃ rest, content_analysis_section content_analysis_example
        = flatten_keywords (keyword_dicts_example.take 5) 0 ++ rest)
    ∧ (tech_section tech_details_example).length = 3 :=
  ⟨C8_csv_flattening_truncation.1 "keywords" keyword_dicts_example (by rfl),
    (C8_csv_flattening_truncation.2.1 "topics" scalar_list_example (by rfl)).1,
    C8_csv_flattening_truncation.2.2.1 keyword_dicts_example 0,
    C8_csv_flattening_truncation.2.2.2.1 content_analysis_example
      keyword_dicts_example (by rfl),
    (C8_csv_flattening_truncation.2.2.2.2 tech_details_example).1⟩
